import Mathlib

/-!
# NBA trade evaluator — a shallow embedding

This file embeds the core of the `nba_trade_evaluator` repository in Lean 4:
the configuration tables (`src/config.py`), the impact-scoring and trade
comparison logic (`src/evaluate_trade.py`), and the per-player aggregation of
game logs (`src/fetch_data.py`).  Python floats are modelled as rationals
(`ℚ`); a raised exception is modelled as `none` in an `Option`-valued result;
pandas rows and tables are modelled as association lists.
-/

namespace NBA

/-- A pandas row (`pd.Series`): an association list from column name to a
numeric cell value.  String-valued cells such as `PLAYER_NAME` are also
modelled as rationals since no claim inspects their contents. -/
abbrev Row := List (String × ℚ)

/-- `row[col]` lookup: the value at the first matching key, `none` when the
key is absent (a Python `KeyError`). -/
def lookup : Row → String → Option ℚ
  | [], _ => none
  | (k, v) :: r, s => if k = s then some v else lookup r s

/-! ## Configuration (`src/config.py`) -/

/-- `IMPACT_WEIGHTS`: the weight table from `config.py`
(PTS 1.0, REB 1.2, AST 1.5, STL 2.0, BLK 2.0, TOV −1.0). -/
def IMPACT_WEIGHTS : List (String × ℚ) :=
  [("PTS", 1), ("REB", 12/10), ("AST", 15/10), ("STL", 2), ("BLK", 2), ("TOV", -1)]

/-- `TRADE_THRESHOLDS["fair"]` from `config.py`. -/
def TRADE_THRESHOLDS_fair : ℚ := 3

/-- `TRADE_THRESHOLDS["slightly_unbalanced"]` from `config.py`. -/
def TRADE_THRESHOLDS_slightly_unbalanced : ℚ := 7

/-- `PROCESSING_CONFIG["min_games_played"]` from `config.py`. -/
def min_games_played : ℕ := 10

/-! ## Python `round` and `int`

Python's built-in `round` rounds to the nearest value, ties to the even
digit (banker's rounding); `int()` truncates toward zero. -/

/-- Round a rational to the nearest integer, ties to the even integer
(Python's `round` tie-breaking rule). -/
def roundHalfEven (x : ℚ) : ℤ :=
  if Int.fract x < 1/2 then ⌊x⌋
  else if 1/2 < Int.fract x then ⌊x⌋ + 1
  else if ⌊x⌋ % 2 = 0 then ⌊x⌋ else ⌊x⌋ + 1

/-- Python `round(x, p)`: round to `p` decimal places, ties to even. -/
def pyRound (p : ℕ) (x : ℚ) : ℚ := (roundHalfEven (x * 10 ^ p) : ℚ) / 10 ^ p

/-- Python `int(x)`: truncation toward zero. -/
def ratTrunc (x : ℚ) : ℤ := if x < 0 then -⌊-x⌋ else ⌊x⌋

/-! ## Trade evaluation (`src/evaluate_trade.py`) -/

/-- The generator-sum inside `calculate_impact_score`:
`sum(stats[stat] * weight for stat, weight in IMPACT_WEIGHTS.items() if stat in stats)`. -/
def weightedSum : List (String × ℚ) → Row → ℚ
  | [], _ => 0
  | (s, w) :: rest, stats =>
    match lookup stats s with
    | some v => v * w + weightedSum rest stats
    | none => weightedSum rest stats

/-- `TradeEvaluator.calculate_impact_score`.  Returns `none` when the row
lacks a column the Python code reads: `GP` (line 73), or `PLAYER_NAME` in the
insufficient-games branch (read by the log f-string on line 74 before the
`return 0.0`). -/
def calculate_impact_score (weights : List (String × ℚ)) (minGP : ℚ) (stats : Row) :
    Option ℚ :=
  match lookup stats "GP" with
  | none => none
  | some gp =>
    if gp < minGP then
      match lookup stats "PLAYER_NAME" with
      | none => none
      | some _ => some 0
    else some (weightedSum weights stats / gp)

/-- `TradeEvaluator.get_player_stats`: first row whose `PLAYER_ID` equals the
requested id, `none` when no row matches or the column is missing (the
Python code catches `IndexError`/`KeyError` and returns `None`). -/
def get_player_stats : List Row → ℚ → Option Row
  | [], _ => none
  | r :: rest, pid =>
    if lookup r "PLAYER_ID" = some pid then some r else get_player_stats rest pid

/-- `TradeEvaluator._get_verdict`. -/
def get_verdict (difference : ℚ) : String :=
  if difference < TRADE_THRESHOLDS_fair then "Fair Trade"
  else if difference < TRADE_THRESHOLDS_slightly_unbalanced then "Slightly Unbalanced"
  else "Significantly Unbalanced"

/-- `TradeEvaluator._estimate_win_impact`: `round((impact1 - impact2) / 10, 2)`. -/
def estimate_win_impact (impact1 impact2 : ℚ) : ℚ :=
  pyRound 2 ((impact1 - impact2) / 10)

/-- The fairness computation on lines 106–107 of `evaluate_trade.py`:
`max(0, 10 - abs(p1_impact - p2_impact))`. -/
def fairness_score (impact1 impact2 : ℚ) : ℚ :=
  max 0 (10 - |impact1 - impact2|)

/-- The value of `TradeEvaluator._get_stats_summary`. -/
structure StatsSummary where
  PPG : ℚ
  RPG : ℚ
  APG : ℚ
  GP : ℤ
deriving DecidableEq

/-- `TradeEvaluator._get_stats_summary`; `none` models the `KeyError` raised
when a read column is absent. -/
def get_stats_summary (stats : Row) : Option StatsSummary :=
  match lookup stats "PTS", lookup stats "REB", lookup stats "AST", lookup stats "GP" with
  | some pts, some reb, some ast, some gp =>
    some ⟨pyRound 1 pts, pyRound 1 reb, pyRound 1 ast, ratTrunc gp⟩
  | _, _, _, _ => none

/-- One entry of the `"players"` dict in the result of `evaluate_trade`. -/
structure PlayerEntry where
  name : ℚ
  impact_score : ℚ
  stats_summary : StatsSummary
deriving DecidableEq

/-- The `"trade_analysis"` value returned by `evaluate_trade` on success. -/
structure TradeAnalysis where
  players : List (String × PlayerEntry)
  fairness_score : ℚ
  verdict : String
  win_impact : ℚ
deriving DecidableEq

/-- The dictionary returned by `evaluate_trade`: either the structured
`{"error": ...}` dict or the `{"trade_analysis": ...}` dict. -/
inductive TradeResult where
  | error (msg : String)
  | analysis (a : TradeAnalysis)
deriving DecidableEq

/-- Python dict insertion: overwrite the value in place when the key exists,
append otherwise.  Models the dict literal `{str(id1): ..., str(id2): ...}`
where the second entry overwrites the first if the keys coincide. -/
def dictInsert : List (String × PlayerEntry) → String → PlayerEntry →
    List (String × PlayerEntry)
  | [], k, v => [(k, v)]
  | (k', v') :: d, k, v =>
    if k' = k then (k, v) :: d else (k', v') :: dictInsert d k v

/-- `TradeEvaluator.evaluate_trade` over a stats table.  `some (.error _)` is
the structured not-found dict; `none` models an uncaught exception inside the
impact/summary computations (missing column). -/
def evaluate_trade (table : List Row) (player1_id player2_id : ℤ) :
    Option TradeResult :=
  match get_player_stats table (player1_id : ℚ),
        get_player_stats table (player2_id : ℚ) with
  | some s1, some s2 =>
    match calculate_impact_score IMPACT_WEIGHTS (min_games_played : ℚ) s1,
          calculate_impact_score IMPACT_WEIGHTS (min_games_played : ℚ) s2 with
    | some i1, some i2 =>
      match lookup s1 "PLAYER_NAME", lookup s2 "PLAYER_NAME",
            get_stats_summary s1, get_stats_summary s2 with
      | some n1, some n2, some sum1, some sum2 =>
        some (TradeResult.analysis
          { players :=
              dictInsert
                (dictInsert [] (toString player1_id) ⟨n1, pyRound 2 i1, sum1⟩)
                (toString player2_id) ⟨n2, pyRound 2 i2, sum2⟩
            fairness_score := pyRound 2 (fairness_score i1 i2)
            verdict := get_verdict |i1 - i2|
            win_impact := estimate_win_impact i1 i2 })
      | _, _, _, _ => none
    | _, _ => none
  | _, _ => some (TradeResult.error "One or both players not found")

/-- `TradeEvaluator._validate_data`'s required column list:
`list(IMPACT_WEIGHTS.keys()) + ["PLAYER_ID", "PLAYER_NAME", "GP"]`. -/
def required_columns : List String :=
  IMPACT_WEIGHTS.map Prod.fst ++ ["PLAYER_ID", "PLAYER_NAME", "GP"]

/-- The set difference `set(required_cols) - set(df.columns)` computed by
`_validate_data`, as the sublist of required columns not among `columns`. -/
def missing_columns (columns : List String) : List String :=
  required_columns.filter (fun c => decide (c ∉ columns))

/-- `TradeEvaluator._validate_data`: raises `ValueError` naming the missing
set when it is non-empty. -/
def validate_data (columns : List String) : Except (List String) Unit :=
  if missing_columns columns = [] then Except.ok ()
  else Except.error (missing_columns columns)

/-! ## Data collection (`src/fetch_data.py`) -/

/-- `DataCollector.essential_stats`. -/
def essential_stats : List String :=
  ["PTS", "AST", "REB", "STL", "BLK", "TOV",
   "FG_PCT", "FG3_PCT", "FT_PCT",
   "GP", "PLAYER_ID", "PLAYER_NAME", "TEAM_ID"]

/-- A pandas `DataFrame` of game logs: its column set and its rows. -/
structure LogTable where
  cols : List String
  rows : List Row

/-- One entry of `players.get_active_players()`: id, `full_name`, and the
optional `teamId` field read by `player.get("teamId", 0)`. -/
structure PlayerInfo where
  id : ℚ
  full_name : ℚ
  teamId : Option ℚ

/-- A cell of a declared column; a present column has a value in every row. -/
def colCell (r : Row) (c : String) : ℚ := (lookup r c).getD 0

/-- `logs[c].sum()`. -/
def colSum (L : LogTable) (c : String) : ℚ := (L.rows.map (fun r => colCell r c)).sum

/-- `logs[c].mean()`. -/
def colMean (L : LogTable) (c : String) : ℚ := colSum L c / (L.rows.length : ℚ)

/-- `logs[c].iloc[-1]`: the cell of the last row. -/
def colLast (L : LogTable) (c : String) : ℚ :=
  (L.rows.getLast?.map (fun r => colCell r c)).getD 0

/-- `pct.split('_')[0]`: the prefix of the column name up to the first
underscore (`FG`, `FG3` or `FT`). -/
def pctBase (pc : String) : String := String.mk (pc.data.takeWhile (fun c => c != '_'))

/-- The shooting-percentage computation in `collect_player_stats`
(lines 116–127): average the percentage column when present, otherwise
derive `sum(made) / sum(attempted)`, defined as `0.0` when the attempted
sum is not positive; `none` when neither source of data exists. -/
def pctValue (L : LogTable) (pc : String) : Option ℚ :=
  if pc ∈ L.cols then some (colMean L pc)
  else if pctBase pc ++ "M" ∈ L.cols ∧ pctBase pc ++ "A" ∈ L.cols then
    some (if 0 < colSum L (pctBase pc ++ "A") then
            colSum L (pctBase pc ++ "M") / colSum L (pctBase pc ++ "A")
          else 0)
  else none

/-- The fixed counting-stat list iterated on line 110 of `fetch_data.py`. -/
def countingStats : List String := ["PTS", "AST", "REB", "STL", "BLK", "TOV"]

/-- The shooting-percentage list iterated on line 116 of `fetch_data.py`. -/
def pctStats : List String := ["FG_PCT", "FG3_PCT", "FT_PCT"]

/-- The loop body of `DataCollector.collect_player_stats` for one player:
`none` when the player is excluded from the output table (no logs, empty
logs, fewer games than `min_games_played`, or an essential stat missing),
otherwise the emitted per-player stats row, keys in insertion order. -/
def collect_one (player : PlayerInfo) (logs : Option LogTable) : Option Row :=
  match logs with
  | none => none
  | some L =>
    if L.rows = [] then none
    else if L.rows.length < min_games_played then none
    else
      let stats : Row :=
        (countingStats.filterMap fun s =>
          if s ∈ L.cols then some (s, colMean L s) else none)
        ++ (pctStats.filterMap fun pc => (pctValue L pc).map fun v => (pc, v))
        ++ [("GP", (L.rows.length : ℚ)), ("PLAYER_ID", player.id),
            ("PLAYER_NAME", player.full_name),
            ("TEAM_ID", if "TEAM_ID" ∈ L.cols then colLast L "TEAM_ID"
                        else player.teamId.getD 0)]
      if essential_stats.all (fun k => (lookup stats k).isSome) then some stats
      else none

/-! ## Concrete inputs used by examples and witnesses -/

/-- The stat row of the worked example in the spec:
`{PTS:20, AST:5, REB:5, STL:1, BLK:1, TOV:2, GP:10}`. -/
def exampleRow : Row :=
  [("PTS", 20), ("AST", 5), ("REB", 5), ("STL", 1), ("BLK", 1), ("TOV", 2), ("GP", 10)]

/-- A small two-player stats table with all columns the evaluator reads. -/
def T4 : List Row :=
  [ [("PLAYER_ID", 1), ("PLAYER_NAME", 101), ("GP", 10), ("PTS", 10), ("AST", 0),
     ("REB", 0), ("STL", 0), ("BLK", 0), ("TOV", 0)],
    [("PLAYER_ID", 2), ("PLAYER_NAME", 102), ("GP", 10), ("PTS", 20), ("AST", 0),
     ("REB", 0), ("STL", 0), ("BLK", 0), ("TOV", 0)] ]

/-- The analysis produced by `evaluate_trade T4 1 2`. -/
def A12 : TradeAnalysis :=
  { players := [("1", ⟨101, 1, ⟨10, 0, 0, 10⟩⟩), ("2", ⟨102, 2, ⟨20, 0, 0, 10⟩⟩)]
    fairness_score := 9
    verdict := "Fair Trade"
    win_impact := -1/10 }

/-- The analysis produced by `evaluate_trade T4 2 1`. -/
def A21 : TradeAnalysis :=
  { players := [("2", ⟨102, 2, ⟨20, 0, 0, 10⟩⟩), ("1", ⟨101, 1, ⟨10, 0, 0, 10⟩⟩)]
    fairness_score := 9
    verdict := "Fair Trade"
    win_impact := 1/10 }

/-- Game logs with only makes/attempts columns and zero attempts. -/
def L8 : LogTable := ⟨["FGM", "FGA"], [[("FGM", 0), ("FGA", 0)]]⟩

/-- An active-player entry used by concrete aggregation runs. -/
def P7 : PlayerInfo := ⟨1, 101, some 5⟩

/-- Ten logged games, all columns the aggregator needs declared. -/
def L7 : LogTable :=
  ⟨["PTS", "AST", "REB", "STL", "BLK", "TOV", "FG_PCT", "FG3_PCT", "FT_PCT"],
   List.replicate 10 [("PTS", 10)]⟩

/-- The same columns with only five logged games. -/
def L7s : LogTable :=
  ⟨["PTS", "AST", "REB", "STL", "BLK", "TOV", "FG_PCT", "FG3_PCT", "FT_PCT"],
   List.replicate 5 [("PTS", 10)]⟩

end NBA

namespace NBA

set_option maxRecDepth 4000

/-! ## Helper lemmas -/

/-- The code's fold agrees with the spec's description of the impact sum:
the sum over the weight entries whose stat is present in the row of
(row value times weight). -/
theorem weightedSum_eq_filterMap (w : List (String × ℚ)) (stats : Row) :
    weightedSum w stats =
      (w.filterMap fun p => (lookup stats p.1).map fun v => v * p.2).sum := by
  induction w with
  | nil => simp [weightedSum]
  | cons p rest ih =>
    obtain ⟨s, wt⟩ := p
    cases h : lookup stats s
    · simp [weightedSum, h, ih]
    · simp [weightedSum, h, ih]

/-- Scaling every weight scales the weighted sum. -/
theorem weightedSum_scaled (k : ℚ) (w : List (String × ℚ)) (stats : Row) :
    weightedSum (w.map fun p => (p.1, k * p.2)) stats = k * weightedSum w stats := by
  induction w with
  | nil => simp [weightedSum]
  | cons p rest ih =>
    obtain ⟨s, wt⟩ := p
    cases h : lookup stats s
    · simp [weightedSum, h, ih]
    · simp [weightedSum, h, ih]; ring

/-- Value of `roundHalfEven` below the tie. -/
theorem roundHalfEven_of_lt {x : ℚ} (h : Int.fract x < 1/2) :
    roundHalfEven x = ⌊x⌋ := by
  rw [roundHalfEven, if_pos h]

/-- Value of `roundHalfEven` above the tie. -/
theorem roundHalfEven_of_gt {x : ℚ} (h : 1/2 < Int.fract x) :
    roundHalfEven x = ⌊x⌋ + 1 := by
  rw [roundHalfEven, if_neg (by linarith), if_pos h]

/-- Value of `roundHalfEven` at a tie with even floor. -/
theorem roundHalfEven_of_eq_even {x : ℚ} (h : Int.fract x = 1/2)
    (hp : ⌊x⌋ % 2 = 0) : roundHalfEven x = ⌊x⌋ := by
  rw [roundHalfEven, if_neg (by rw [h]; norm_num), if_neg (by rw [h]; norm_num), if_pos hp]

/-- Value of `roundHalfEven` at a tie with odd floor. -/
theorem roundHalfEven_of_eq_odd {x : ℚ} (h : Int.fract x = 1/2)
    (hp : ¬ ⌊x⌋ % 2 = 0) : roundHalfEven x = ⌊x⌋ + 1 := by
  rw [roundHalfEven, if_neg (by rw [h]; norm_num), if_neg (by rw [h]; norm_num), if_neg hp]

/-- Rounding ties to even is symmetric under negation. -/
theorem roundHalfEven_neg (x : ℚ) : roundHalfEven (-x) = -roundHalfEven x := by
  by_cases h0 : Int.fract x = 0
  · have hneg : Int.fract (-x) = 0 := Int.fract_neg_eq_zero.mpr h0
    have hfl : (⌊x⌋ : ℚ) = x := by
      have := Int.floor_add_fract x
      rw [h0, add_zero] at this; exact this
    have hflneg : ⌊-x⌋ = -⌊x⌋ := by
      rw [show (-x : ℚ) = ((-⌊x⌋ : ℤ) : ℚ) by push_cast [hfl]; ring, Int.floor_intCast]
    rw [roundHalfEven_of_lt (by rw [hneg]; norm_num),
      roundHalfEven_of_lt (by rw [h0]; norm_num), hflneg]
  · have hfr : Int.fract (-x) = 1 - Int.fract x := Int.fract_neg h0
    have hlo : 0 < Int.fract x := lt_of_le_of_ne (Int.fract_nonneg x) (Ne.symm h0)
    have hhi : Int.fract x < 1 := Int.fract_lt_one x
    have hflneg : ⌊-x⌋ = -⌊x⌋ - 1 := by
      have h1 : ((⌊-x⌋ : ℤ) : ℚ) = ((-⌊x⌋ - 1 : ℤ) : ℚ) := by
        have e1 := Int.floor_add_fract x
        have e2 := Int.floor_add_fract (-x)
        rw [hfr] at e2
        push_cast
        linarith
      exact_mod_cast h1
    rcases lt_trichotomy (Int.fract x) (1/2) with hc | hc | hc
    · rw [roundHalfEven_of_gt (by rw [hfr]; linarith), roundHalfEven_of_lt hc, hflneg]
      ring
    · have hc2 : Int.fract (-x) = 1/2 := by rw [hfr, hc]; norm_num
      rcases Int.emod_two_eq_zero_or_one ⌊x⌋ with hp | hp
      · rw [roundHalfEven_of_eq_odd hc2 (by omega), roundHalfEven_of_eq_even hc hp, hflneg]
        ring
      · rw [roundHalfEven_of_eq_even hc2 (by omega), roundHalfEven_of_eq_odd hc (by omega),
          hflneg]
        ring
    · rw [roundHalfEven_of_lt (by rw [hfr]; linarith), roundHalfEven_of_gt hc, hflneg]
      ring

/-- Python `round(·, p)` commutes with negation. -/
theorem pyRound_neg (p : ℕ) (x : ℚ) : pyRound p (-x) = -pyRound p x := by
  rw [pyRound, pyRound, show (-x * 10 ^ p : ℚ) = -(x * 10 ^ p) by ring,
    roundHalfEven_neg]
  push_cast
  ring

/-- Python `round(·, p)` fixes integers. -/
theorem pyRound_intCast (p : ℕ) (n : ℤ) : pyRound p (n : ℚ) = n := by
  have h : ((n : ℚ) * 10 ^ p) = ((n * 10 ^ p : ℤ) : ℚ) := by push_cast; ring
  rw [pyRound, h, roundHalfEven_of_lt (by rw [Int.fract_intCast]; norm_num),
    Int.floor_intCast]
  push_cast
  rw [mul_div_assoc, div_self (by positivity), mul_one]

/-- The fairness computation is symmetric in the two impact scores. -/
theorem fairness_score_comm (i1 i2 : ℚ) :
    fairness_score i1 i2 = fairness_score i2 i1 := by
  rw [fairness_score, fairness_score, abs_sub_comm]

/-- A shooting percentage is computable whenever the percentage column or
both the makes and attempts columns are declared. -/
theorem pctValue_isSome (L : LogTable) (pc : String)
    (h : pc ∈ L.cols ∨ (pctBase pc ++ "M" ∈ L.cols ∧ pctBase pc ++ "A" ∈ L.cols)) :
    ∃ v, pctValue L pc = some v := by
  rw [pctValue]
  by_cases h1 : pc ∈ L.cols
  · exact ⟨_, by rw [if_pos h1]⟩
  · rcases h with h | hMA
    · exact absurd h h1
    · exact ⟨_, by rw [if_neg h1, if_pos hMA]⟩

/-- Evaluation of `"FG_PCT".split('_')[0] + "M"`. -/
theorem pctBase_FGM : pctBase "FG_PCT" ++ "M" = "FGM" := rfl

/-- Evaluation of `"FG_PCT".split('_')[0] + "A"`. -/
theorem pctBase_FGA : pctBase "FG_PCT" ++ "A" = "FGA" := rfl

end NBA

namespace NBA

set_option maxRecDepth 4000

/-! ## The claims -/

/-- C1: for every stat row with a games-played value (and a player name, read
by the insufficient-games log line), the impact score is the weight/row sum
divided by games-played when games-played is at least the configured minimum,
and exactly 0.0 otherwise; on the example row
`{PTS:20, AST:5, REB:5, STL:1, BLK:1, TOV:2, GP:10}` with the default weights
it equals 3.55. -/
theorem C1_impact_score (stats : Row) (gp nm : ℚ)
    (hgp : lookup stats "GP" = some gp)
    (hnm : lookup stats "PLAYER_NAME" = some nm) :
    ((min_games_played : ℚ) ≤ gp →
      calculate_impact_score IMPACT_WEIGHTS (min_games_played : ℚ) stats =
        some ((IMPACT_WEIGHTS.filterMap fun p =>
                (lookup stats p.1).map fun v => v * p.2).sum / gp)) ∧
    (gp < (min_games_played : ℚ) →
      calculate_impact_score IMPACT_WEIGHTS (min_games_played : ℚ) stats = some 0) ∧
    calculate_impact_score IMPACT_WEIGHTS (min_games_played : ℚ) exampleRow =
      some (71/20) := by
  refine ⟨fun h => ?_, fun h => ?_, ?_⟩
  · simp only [calculate_impact_score, hgp]
    rw [if_neg (not_lt.mpr h), weightedSum_eq_filterMap]
  · simp only [calculate_impact_score, hgp]
    rw [if_pos h, hnm]
  · simp [calculate_impact_score, lookup, weightedSum, IMPACT_WEIGHTS, exampleRow,
      min_games_played]
    norm_num

/-- Witness for C1: an insufficient-games row scores 0.0 and the example row
scores 3.55. -/
theorem C1_witness :
    calculate_impact_score IMPACT_WEIGHTS (min_games_played : ℚ)
        [("PLAYER_NAME", 7), ("GP", 5), ("PTS", 100)] = some 0 ∧
    calculate_impact_score IMPACT_WEIGHTS (min_games_played : ℚ) exampleRow =
      some (71/20) :=
  ⟨(C1_impact_score [("PLAYER_NAME", 7), ("GP", 5), ("PTS", 100)] 5 7
      (by simp [lookup]) (by simp [lookup])).2.1 (by norm_num [min_games_played]),
   (C1_impact_score [("PLAYER_NAME", 7), ("GP", 5), ("PTS", 100)] 5 7
      (by simp [lookup]) (by simp [lookup])).2.2⟩

/-- C2: for every non-negative difference the verdict is exactly one of the
three labels, with strict-`<` banding: below 3.0 "Fair Trade", from 3.0 up to
but excluding 7.0 "Slightly Unbalanced", from 7.0 on "Significantly
Unbalanced"; the boundaries 3.0 and 7.0 fall in the higher band. -/
theorem C2_verdict (d : ℚ) (_hd : 0 ≤ d) :
    (d < TRADE_THRESHOLDS_fair → get_verdict d = "Fair Trade") ∧
    (TRADE_THRESHOLDS_fair ≤ d → d < TRADE_THRESHOLDS_slightly_unbalanced →
      get_verdict d = "Slightly Unbalanced") ∧
    (TRADE_THRESHOLDS_slightly_unbalanced ≤ d →
      get_verdict d = "Significantly Unbalanced") ∧
    (get_verdict d = "Fair Trade" ∨ get_verdict d = "Slightly Unbalanced" ∨
      get_verdict d = "Significantly Unbalanced") ∧
    get_verdict TRADE_THRESHOLDS_fair = "Slightly Unbalanced" ∧
    get_verdict TRADE_THRESHOLDS_slightly_unbalanced = "Significantly Unbalanced" := by
  refine ⟨fun h => ?_, fun h1 h2 => ?_, fun h => ?_, ?_, ?_, ?_⟩
  · rw [get_verdict, if_pos h]
  · rw [get_verdict, if_neg (not_lt.mpr h1), if_pos h2]
  · rw [get_verdict, if_neg, if_neg (not_lt.mpr h)]
    rw [TRADE_THRESHOLDS_fair]
    rw [TRADE_THRESHOLDS_slightly_unbalanced] at h
    intro hc; linarith
  · unfold get_verdict; split
    · exact Or.inl rfl
    · split
      · exact Or.inr (Or.inl rfl)
      · exact Or.inr (Or.inr rfl)
  · simp only [get_verdict, TRADE_THRESHOLDS_fair, TRADE_THRESHOLDS_slightly_unbalanced]
    rw [if_neg (by norm_num), if_pos (by norm_num)]
  · simp only [get_verdict, TRADE_THRESHOLDS_fair, TRADE_THRESHOLDS_slightly_unbalanced]
    rw [if_neg (by norm_num), if_neg (by norm_num)]

/-- Witness for C2: the spec's three example differences. -/
theorem C2_witness :
    get_verdict 1 = "Fair Trade" ∧ get_verdict 5 = "Slightly Unbalanced" ∧
    get_verdict 10 = "Significantly Unbalanced" :=
  ⟨(C2_verdict 1 (by norm_num)).1 (by norm_num [TRADE_THRESHOLDS_fair]),
   (C2_verdict 5 (by norm_num)).2.1 (by norm_num [TRADE_THRESHOLDS_fair])
     (by norm_num [TRADE_THRESHOLDS_slightly_unbalanced]),
   (C2_verdict 10 (by norm_num)).2.2.1
     (by norm_num [TRADE_THRESHOLDS_slightly_unbalanced])⟩

/-- C3: the fairness score is `max(0, 10 - diff)` for the absolute impact
difference, always lies in [0, 10], is exactly 10 at difference 0 and exactly
0 for differences of at least 10. -/
theorem C3_fairness (i1 i2 : ℚ) :
    fairness_score i1 i2 = max 0 (10 - |i1 - i2|) ∧
    0 ≤ fairness_score i1 i2 ∧ fairness_score i1 i2 ≤ 10 ∧
    (|i1 - i2| = 0 → fairness_score i1 i2 = 10) ∧
    (10 ≤ |i1 - i2| → fairness_score i1 i2 = 0) := by
  have habs : 0 ≤ |i1 - i2| := abs_nonneg _
  refine ⟨rfl, le_max_left _ _, ?_, fun h => ?_, fun h => ?_⟩
  · rw [fairness_score]
    exact max_le (by norm_num) (by linarith)
  · rw [fairness_score, h]; norm_num
  · rw [fairness_score, max_eq_left (by linarith)]

/-- Witness for C3: equal impacts give fairness 10; a gap of 12 gives 0. -/
theorem C3_witness : fairness_score 7 7 = 10 ∧ fairness_score 12 0 = 0 :=
  ⟨(C3_fairness 7 7).2.2.2.1 (by norm_num),
   (C3_fairness 12 0).2.2.2.2 (by norm_num)⟩

end NBA

namespace NBA

set_option maxRecDepth 4000

/-- C9: scaling every weight by a scalar k scales the impact score by k, in
the sufficient-games branch as well as the 0.0 insufficient-games branch (and
exception outcomes are preserved). -/
theorem C9_weight_linearity (k minGP : ℚ) (w : List (String × ℚ)) (stats : Row) :
    calculate_impact_score (w.map fun p => (p.1, k * p.2)) minGP stats =
      (calculate_impact_score w minGP stats).map fun x => k * x := by
  rw [calculate_impact_score, calculate_impact_score]
  cases hgp : lookup stats "GP" with
  | none => rfl
  | some gp =>
    simp only
    split
    · cases hn : lookup stats "PLAYER_NAME" <;> simp
    · rw [weightedSum_scaled]
      simp [mul_div_assoc]

/-- C4: whenever both orders of a trade evaluation produce an analysis, the
two analyses carry the same verdict, the same fairness score, and opposite
win impacts. -/
theorem C4_order_symmetry (t : List Row) (a b : ℤ) (ra rb : TradeAnalysis)
    (hab : evaluate_trade t a b = some (TradeResult.analysis ra))
    (hba : evaluate_trade t b a = some (TradeResult.analysis rb)) :
    ra.verdict = rb.verdict ∧ ra.fairness_score = rb.fairness_score ∧
      ra.win_impact = -rb.win_impact := by
  rw [evaluate_trade] at hab hba
  cases h1 : get_player_stats t (a : ℚ) with
  | none => simp only [h1] at hab; simp at hab
  | some s1 =>
    cases h2 : get_player_stats t (b : ℚ) with
    | none => simp only [h1, h2] at hab; simp at hab
    | some s2 =>
      simp only [h1, h2] at hab hba
      cases hi1 : calculate_impact_score IMPACT_WEIGHTS (min_games_played : ℚ) s1 with
      | none => simp only [hi1] at hab; simp at hab
      | some i1 =>
        cases hi2 : calculate_impact_score IMPACT_WEIGHTS (min_games_played : ℚ) s2 with
        | none => simp only [hi1, hi2] at hab; simp at hab
        | some i2 =>
          simp only [hi1, hi2] at hab hba
          cases hn1 : lookup s1 "PLAYER_NAME" with
          | none => simp only [hn1] at hab; simp at hab
          | some n1 =>
            cases hn2 : lookup s2 "PLAYER_NAME" with
            | none => simp only [hn1, hn2] at hab; simp at hab
            | some n2 =>
              cases hm1 : get_stats_summary s1 with
              | none => simp only [hn1, hn2, hm1] at hab; simp at hab
              | some m1 =>
                cases hm2 : get_stats_summary s2 with
                | none => simp only [hn1, hn2, hm1, hm2] at hab; simp at hab
                | some m2 =>
                  simp only [hn1, hn2, hm1, hm2, Option.some.injEq,
                    TradeResult.analysis.injEq] at hab hba
                  subst hab
                  subst hba
                  refine ⟨?_, ?_, ?_⟩
                  · show get_verdict |i1 - i2| = get_verdict |i2 - i1|
                    rw [abs_sub_comm]
                  · show pyRound 2 (fairness_score i1 i2) = pyRound 2 (fairness_score i2 i1)
                    rw [fairness_score_comm]
                  · show estimate_win_impact i1 i2 = -estimate_win_impact i2 i1
                    rw [estimate_win_impact, estimate_win_impact, ← pyRound_neg]
                    congr 1
                    ring

/-- Witness for C4: the two evaluation orders over the concrete table `T4`. -/
theorem C4_witness :
    A12.verdict = A21.verdict ∧ A12.fairness_score = A21.fairness_score ∧
      A12.win_impact = -A21.win_impact :=
  C4_order_symmetry T4 1 2 A12 A21
    (by
      simp [evaluate_trade, get_player_stats, lookup, T4, calculate_impact_score,
        weightedSum, IMPACT_WEIGHTS, min_games_played, get_stats_summary, dictInsert,
        fairness_score, get_verdict, TRADE_THRESHOLDS_fair,
        TRADE_THRESHOLDS_slightly_unbalanced, estimate_win_impact, ratTrunc, A12]
      have h1 : toString (1 : ℤ) = "1" := rfl
      have h2 : toString (2 : ℤ) = "2" := rfl
      simp [h1, h2]
      norm_num [pyRound, roundHalfEven, Int.fract])
    (by
      simp [evaluate_trade, get_player_stats, lookup, T4, calculate_impact_score,
        weightedSum, IMPACT_WEIGHTS, min_games_played, get_stats_summary, dictInsert,
        fairness_score, get_verdict, TRADE_THRESHOLDS_fair,
        TRADE_THRESHOLDS_slightly_unbalanced, estimate_win_impact, ratTrunc, A21]
      have h1 : toString (1 : ℤ) = "1" := rfl
      have h2 : toString (2 : ℤ) = "2" := rfl
      simp [h1, h2]
      norm_num [pyRound, roundHalfEven, Int.fract, abs_sub_comm])

/-- C6: when either requested identifier is absent from the table the result
is the structured not-found error dict, not an exception; when both are
present the result is never the error dict. -/
theorem C6_missing_player (t : List Row) (a b : ℤ) :
    ((get_player_stats t (a : ℚ) = none ∨ get_player_stats t (b : ℚ) = none) →
      evaluate_trade t a b = some (TradeResult.error "One or both players not found")) ∧
    (∀ ra rb m, get_player_stats t (a : ℚ) = some ra →
      get_player_stats t (b : ℚ) = some rb →
      evaluate_trade t a b ≠ some (TradeResult.error m)) := by
  constructor
  · intro h
    rw [evaluate_trade]
    rcases h with h | h
    · simp only [h]
    · cases ha : get_player_stats t (a : ℚ) <;> simp only [h, ha]
  · intro ra rb m h1 h2 hc
    rw [evaluate_trade] at hc
    simp only [h1, h2] at hc
    cases hi1 : calculate_impact_score IMPACT_WEIGHTS (min_games_played : ℚ) ra with
    | none => simp only [hi1] at hc; simp at hc
    | some i1 =>
      cases hi2 : calculate_impact_score IMPACT_WEIGHTS (min_games_played : ℚ) rb with
      | none => simp only [hi1, hi2] at hc; simp at hc
      | some i2 =>
        simp only [hi1, hi2] at hc
        cases hn1 : lookup ra "PLAYER_NAME" with
        | none => simp only [hn1] at hc; simp at hc
        | some n1 =>
          cases hn2 : lookup rb "PLAYER_NAME" with
          | none => simp only [hn1, hn2] at hc; simp at hc
          | some n2 =>
            cases hm1 : get_stats_summary ra with
            | none => simp only [hn1, hn2, hm1] at hc; simp at hc
            | some m1 =>
              cases hm2 : get_stats_summary rb with
              | none => simp only [hn1, hn2, hm1, hm2] at hc; simp at hc
              | some m2 => simp only [hn1, hn2, hm1, hm2] at hc; simp at hc

/-- Witness for C6: in `T4`, the pair (1, 99) yields the error dict and the
pair (1, 2) does not. -/
theorem C6_witness :
    evaluate_trade T4 1 99 = some (TradeResult.error "One or both players not found") ∧
    evaluate_trade T4 1 2 ≠ some (TradeResult.error "One or both players not found") :=
  ⟨(C6_missing_player T4 1 99).1
     (Or.inr (by simp [get_player_stats, lookup, T4])),
   (C6_missing_player T4 1 2).2 (T4.get ⟨0, by norm_num [T4]⟩) (T4.get ⟨1, by norm_num [T4]⟩)
     "One or both players not found"
     (by simp [get_player_stats, lookup, T4])
     (by simp [get_player_stats, lookup, T4])⟩

/-- C10: evaluating a player against themself yields an analysis whose players
dict has exactly one (collapsed) entry, verdict "Fair Trade", fairness score
10 and win impact 0.0. -/
theorem C10_self_trade (t : List Row) (pid : ℤ) (r : Row) (i n : ℚ) (sm : StatsSummary)
    (hr : get_player_stats t (pid : ℚ) = some r)
    (hi : calculate_impact_score IMPACT_WEIGHTS (min_games_played : ℚ) r = some i)
    (hn : lookup r "PLAYER_NAME" = some n)
    (hs : get_stats_summary r = some sm) :
    evaluate_trade t pid pid = some (TradeResult.analysis
      { players := [(toString pid, ⟨n, pyRound 2 i, sm⟩)]
        fairness_score := 10
        verdict := "Fair Trade"
        win_impact := 0 }) := by
  rw [evaluate_trade]
  simp only [hr, hi, hn, hs]
  have hdiff : |i - i| = (0 : ℚ) := by rw [sub_self, abs_zero]
  have hfair : fairness_score i i = 10 := by
    rw [fairness_score, hdiff]; norm_num
  have hten : pyRound 2 ((10 : ℤ) : ℚ) = ((10 : ℤ) : ℚ) := pyRound_intCast 2 10
  simp only [Option.some.injEq, TradeResult.analysis.injEq, TradeAnalysis.mk.injEq]
  refine ⟨?_, ?_, ?_, ?_⟩
  · show dictInsert (dictInsert [] (toString pid) ⟨n, pyRound 2 i, sm⟩)
      (toString pid) ⟨n, pyRound 2 i, sm⟩ = [(toString pid, ⟨n, pyRound 2 i, sm⟩)]
    simp [dictInsert]
  · show pyRound 2 (fairness_score i i) = 10
    rw [hfair]
    exact_mod_cast hten
  · show get_verdict |i - i| = "Fair Trade"
    rw [hdiff, get_verdict, if_pos (by rw [TRADE_THRESHOLDS_fair]; norm_num)]
  · show estimate_win_impact i i = 0
    rw [estimate_win_impact, sub_self, zero_div]
    exact_mod_cast pyRound_intCast 2 0

/-- Witness for C10: the self-trade of player 1 over `T4`. -/
theorem C10_witness :
    evaluate_trade T4 1 1 = some (TradeResult.analysis
      { players := [(toString (1 : ℤ), ⟨101, pyRound 2 1, ⟨10, 0, 0, 10⟩⟩)]
        fairness_score := 10
        verdict := "Fair Trade"
        win_impact := 0 }) :=
  C10_self_trade T4 1 (T4.get ⟨0, by norm_num [T4]⟩) 1 101 ⟨10, 0, 0, 10⟩
    (by simp [get_player_stats, lookup, T4])
    (by simp [calculate_impact_score, lookup, T4, weightedSum, IMPACT_WEIGHTS,
        min_games_played])
    (by simp [lookup, T4])
    (by simp [get_stats_summary, lookup, T4, ratTrunc]
        norm_num [pyRound, roundHalfEven, Int.fract])

end NBA

namespace NBA

set_option maxRecDepth 4000

/-- C5 counterexample: a table with exactly the nine columns `_validate_data`
checks — and so lacking the team-identifier and every shooting-percentage
column — passes validation, so loading does not fail on their absence. -/
theorem C5_counterexample :
    validate_data ["PTS", "REB", "AST", "STL", "BLK", "TOV",
        "PLAYER_ID", "PLAYER_NAME", "GP"] = Except.ok () ∧
    "TEAM_ID" ∉ (["PTS", "REB", "AST", "STL", "BLK", "TOV",
        "PLAYER_ID", "PLAYER_NAME", "GP"] : List String) ∧
    "FG_PCT" ∉ (["PTS", "REB", "AST", "STL", "BLK", "TOV",
        "PLAYER_ID", "PLAYER_NAME", "GP"] : List String) := by
  refine ⟨rfl, by simp, by simp⟩

/-- C5 (amended): validation succeeds exactly when every column of the
required list — the six weight-table stats plus `PLAYER_ID`, `PLAYER_NAME`
and `GP`, with no team-identifier or shooting-percentage columns — is
present, and otherwise fails with an error naming exactly the missing set. -/
theorem C5_required_columns (columns : List String) :
    (validate_data columns = Except.ok () ↔ ∀ c ∈ required_columns, c ∈ columns) ∧
    (∀ ms, validate_data columns = Except.error ms →
      ∀ c, c ∈ ms ↔ c ∈ required_columns ∧ c ∉ columns) ∧
    required_columns = ["PTS", "REB", "AST", "STL", "BLK", "TOV",
        "PLAYER_ID", "PLAYER_NAME", "GP"] := by
  have hmem : ∀ c, c ∈ missing_columns columns ↔ c ∈ required_columns ∧ c ∉ columns := by
    intro c
    rw [missing_columns, List.mem_filter]
    simp
  refine ⟨?_, ?_, rfl⟩
  · rw [validate_data]
    split
    case isTrue h =>
      simp only [true_iff]
      intro c hc
      by_contra hmemc
      have : c ∈ missing_columns columns := (hmem c).mpr ⟨hc, hmemc⟩
      rw [h] at this
      exact absurd this (List.not_mem_nil c)
    case isFalse h =>
      constructor
      · intro hcon
        exact absurd hcon (by simp)
      · intro hall
        exfalso
        apply h
        rw [List.eq_nil_iff_forall_not_mem]
        intro c hc
        rcases (hmem c).mp hc with ⟨h1, h2⟩
        exact h2 (hall c h1)
  · intro ms hms c
    rw [validate_data] at hms
    split at hms
    · exact absurd hms (by simp)
    · rw [← (Except.error.injEq _ _).mp hms]
      exact hmem c

/-- Witness for C5: a table containing the nine required columns (plus
extras) validates. -/
theorem C5_witness :
    validate_data ["PTS", "REB", "AST", "STL", "BLK", "TOV",
        "PLAYER_ID", "PLAYER_NAME", "GP", "TEAM_ID", "FG_PCT"] = Except.ok () :=
  (C5_required_columns _).1.mpr (by decide)

/-- C8: for a shooting category, a present percentage column is averaged
directly; otherwise the percentage derives as sum(made)/sum(attempted), with
the zero-attempts case defined as 0.0 so the division is always guarded. -/
theorem C8_pct_derivation (L : LogTable) (pc : String) :
    (pc ∈ L.cols → pctValue L pc = some (colMean L pc)) ∧
    (pc ∉ L.cols → pctBase pc ++ "M" ∈ L.cols → pctBase pc ++ "A" ∈ L.cols →
      (colSum L (pctBase pc ++ "A") = 0 → pctValue L pc = some 0) ∧
      (0 < colSum L (pctBase pc ++ "A") →
        pctValue L pc = some (colSum L (pctBase pc ++ "M") /
          colSum L (pctBase pc ++ "A")))) := by
  refine ⟨fun h => ?_, fun h hM hA => ⟨fun hz => ?_, fun hpos => ?_⟩⟩
  · rw [pctValue, if_pos h]
  · rw [pctValue, if_neg h, if_pos ⟨hM, hA⟩, if_neg (by rw [hz]; norm_num)]
  · rw [pctValue, if_neg h, if_pos ⟨hM, hA⟩, if_pos hpos]

/-- Witness for C8: a log table with zero attempted field goals derives a
field-goal percentage of 0.0. -/
theorem C8_witness : pctValue L8 "FG_PCT" = some 0 :=
  ((C8_pct_derivation L8 "FG_PCT").2 (by simp [L8])
      (by rw [pctBase_FGM]; simp [L8]) (by rw [pctBase_FGA]; simp [L8])).1
    (by rw [pctBase_FGA]; simp [colSum, colCell, lookup, L8])

/-- C7: a player with fewer logged games than the configured minimum is
excluded from the aggregated output entirely; a player with at least the
minimum (whose logs declare the counting stats, and a percentage or
makes/attempts pair per shooting category) is emitted with games-played equal
to the number of logged rows. -/
theorem C7_min_games_filter (p : PlayerInfo) (L : LogTable) :
    (L.rows.length < min_games_played → collect_one p (some L) = none) ∧
    (min_games_played ≤ L.rows.length →
      (∀ s ∈ countingStats, s ∈ L.cols) →
      (∀ pc ∈ pctStats, pc ∈ L.cols ∨
        (pctBase pc ++ "M" ∈ L.cols ∧ pctBase pc ++ "A" ∈ L.cols)) →
      ∃ row, collect_one p (some L) = some row ∧
        lookup row "GP" = some ((L.rows.length : ℚ))) := by
  constructor
  · intro h
    rw [collect_one]
    by_cases he : L.rows = []
    · rw [if_pos he]
    · rw [if_neg he, if_pos h]
  · intro h10 hcount hpct
    have hne : ¬ L.rows = [] := by
      intro he
      rw [he] at h10
      simp [min_games_played] at h10
    have h1 : "PTS" ∈ L.cols := hcount _ (by simp [countingStats])
    have h2 : "AST" ∈ L.cols := hcount _ (by simp [countingStats])
    have h3 : "REB" ∈ L.cols := hcount _ (by simp [countingStats])
    have h4 : "STL" ∈ L.cols := hcount _ (by simp [countingStats])
    have h5 : "BLK" ∈ L.cols := hcount _ (by simp [countingStats])
    have h6 : "TOV" ∈ L.cols := hcount _ (by simp [countingStats])
    obtain ⟨v1, hv1⟩ := pctValue_isSome L "FG_PCT" (hpct _ (by simp [pctStats]))
    obtain ⟨v2, hv2⟩ := pctValue_isSome L "FG3_PCT" (hpct _ (by simp [pctStats]))
    obtain ⟨v3, hv3⟩ := pctValue_isSome L "FT_PCT" (hpct _ (by simp [pctStats]))
    rw [collect_one]
    rw [if_neg hne, if_neg (not_lt.mpr h10)]
    simp only [countingStats, pctStats, List.filterMap_cons, List.filterMap_nil,
      if_pos h1, if_pos h2, if_pos h3, if_pos h4, if_pos h5, if_pos h6,
      hv1, hv2, hv3, Option.map_some']
    simp only [essential_stats, lookup, List.all_cons, List.all_nil]
    simp only [List.cons_append, List.nil_append]
    simp [lookup]

/-- Witness for C7: five logged games are excluded; ten logged games with all
columns declared are emitted. -/
theorem C7_witness :
    collect_one P7 (some L7s) = none ∧ (collect_one P7 (some L7)).isSome = true := by
  constructor
  · exact (C7_min_games_filter P7 L7s).1 (by simp [L7s, min_games_played])
  · obtain ⟨row, hrow, -⟩ :=
      (C7_min_games_filter P7 L7).2 (by simp [L7, min_games_played])
        (by decide) (by decide)
    rw [hrow]
    rfl

end NBA
